import Mathlib

/-!
Verification of the message-entity core of Telegram Desktop's history
subsystem (`history/history_item.cpp`): identity reconciliation of
optimistically-sent messages, flag invariants, read/unread derivation,
delete-permission predicates, the incoming-media classifier, and
notification-text truncation.

The embedding is shallow: the item's mutable state becomes an explicit
`Item` record, the owning conversation's capability snapshot becomes a
`Conversation` record, side effects (observer notifications, repaints,
index updates) become an explicit event list, and the two fail-fast
reconciliation transitions return `Option` (`none` models a tripped
`Expects` assertion).
-/

/-- Modelled from the spec: `IsClientMsgId` is declared outside this
excerpt (`data/data_types.h`); the spec defines the local range as the
client-synthesized negative ids assigned before server confirmation. -/
def IsClientMsgId (msgId : Int) : Bool := msgId < 0

/-- Modelled from the spec: `IsServerMsgId` is declared outside this
excerpt (`data/data_types.h`); the spec defines the server range as the
positive authoritative ids assigned by the backend. -/
def IsServerMsgId (msgId : Int) : Bool := 0 < msgId

/-- The portion of `MTPDmessage::Flags` / client flags this excerpt
reads or writes: `f_sending`, `f_failed`, `f_clientside_unread`,
`f_mentioned`, `f_media_unread`, `f_post`, `f_out`. -/
structure Flags where
  sending : Bool
  failed : Bool
  clientsideUnread : Bool
  mentioned : Bool
  mediaUnread : Bool
  post : Bool
  outgoing : Bool
deriving DecidableEq

/-- Kind of the conversation's peer: `UserData`, `ChatData` (basic
group) or `ChannelData` (channel or megagroup). -/
inductive PeerKind
  | user
  | chat
  | channel
deriving DecidableEq

/-- Capability snapshot of the conversation's peer, as queried by
`HistoryItem` through `PeerData` / `UserData` / `ChatData` /
`ChannelData` accessors. -/
structure Peer where
  kind : PeerKind
  selfFlag : Bool
  botFlag : Bool
  supportFlag : Bool
  megagroupFlag : Bool
  hasMigrateTo : Bool
  channelCanDeleteMessages : Bool
  channelCanPublish : Bool
  chatAmCreator : Bool
  chatAdminCanDeleteMessages : Bool
deriving DecidableEq

/-- `PeerData::isUser` (i.e. `asUser() != nullptr`). -/
def Peer.isUser (p : Peer) : Bool :=
  match p.kind with
  | .user => true
  | _ => false

/-- `PeerData::asChat() != nullptr`. -/
def Peer.isChat (p : Peer) : Bool :=
  match p.kind with
  | .chat => true
  | _ => false

/-- `PeerData::isChannel` (channels and megagroups alike). -/
def Peer.isChannel (p : Peer) : Bool :=
  match p.kind with
  | .channel => true
  | _ => false

/-- `PeerData::isSelf`: a user peer that is the logged-in account. -/
def Peer.isSelf (p : Peer) : Bool := p.isUser && p.selfFlag

/-- `PeerData::isMegagroup`: a channel peer with the megagroup flag. -/
def Peer.isMegagroup (p : Peer) : Bool := p.isChannel && p.megagroupFlag

/-- The owning conversation's snapshot as consulted by the item:
its peer, `History::isServerSideUnread(this)` for this item, and the
session setting `notifyAboutPinned` read by `mentionsMe`. -/
structure Conversation where
  peer : Peer
  serverSideUnread : Bool
  notifyAboutPinned : Bool
deriving DecidableEq

/-- The media payload facet the item consults: `Data::Media`'s
`allowsRevoke()` and its `notificationText()` summary. -/
structure Media where
  allowsRevoke : Bool
  summary : List Char
deriving DecidableEq

/-- `HistoryMessageReplyMarkup` component: the client `f_inline` flag
and whether the `inlineKeyboard` handle is present. -/
structure ReplyMarkup where
  inlineFlag : Bool
  hasInlineKeyboard : Bool
deriving DecidableEq

/-- The `HistoryItem` state this excerpt manipulates: id, date, flags,
body text, optional media, optional group id, optional reply-markup
component, the pinned-service component presence consulted by
`mentionsMe`, membership in the conversation's local-message index, and
the classification facts supplied by virtual methods / collaborators
(`isLogEntry`, `serviceMsg`, `toHistoryMessage`, `isGroupMigrate`). -/
structure Item where
  id : Int
  date : Int
  flags : Flags
  text : List Char
  media : Option Media
  groupId : Option Int
  markup : Option ReplyMarkup
  hasServicePinned : Bool
  registeredLocal : Bool
  isLogEntry : Bool
  serviceMsg : Bool
  toHistoryMessage : Bool
  isGroupMigrate : Bool
deriving DecidableEq

/-- `HistoryItem::out()`: the `f_out` flag. -/
def Item.out (it : Item) : Bool := it.flags.outgoing

/-- `HistoryItem::isPost()`: the `f_post` flag. -/
def Item.isPost (it : Item) : Bool := it.flags.post

/-- Observable side effects of the operations: observer notifications,
repaints and conversation-index updates. -/
inductive Event
  | itemIdChange (oldId : Int)
  | keyboardUpdateMessageId
  | itemRepaint
  | channelLocalMessages
  | updateChatListEntry
  | eraseFromUnreadMentions (msgId : Int)
deriving DecidableEq

/-- `HistoryItem::inlineReplyMarkup`: the markup component when present
and carrying the client `f_inline` flag. -/
def inlineReplyMarkup (it : Item) : Option ReplyMarkup :=
  match it.markup with
  | some markup => if markup.inlineFlag then some markup else none
  | none => none

/-- `HistoryItem::setRealId(newId)`. `Expects` the sending flag and a
client-range id (`none` models the tripped assertion); exchanges the id
for `newId`, clears the sending flag, unregisters from the
conversation's local-message index when the new id is server-range,
notifies the id change with the old id, updates the inline keyboard's
message id when one exists, and requests a repaint. -/
def setRealId (it : Item) (newId : Int) : Option (Item × List Event) :=
  if it.flags.sending && IsClientMsgId it.id then
    let oldId := it.id
    let it1 : Item := { it with id := newId, flags := { it.flags with sending := false } }
    let it2 : Item :=
      if IsServerMsgId it1.id then { it1 with registeredLocal := false } else it1
    let keyboardEvents : List Event :=
      match inlineReplyMarkup it2 with
      | some markup =>
        if markup.hasInlineKeyboard then [Event.keyboardUpdateMessageId] else []
      | none => []
    some (it2, [Event.itemIdChange oldId] ++ keyboardEvents ++ [Event.itemRepaint])
  else none

/-- `HistoryItem::sendFailed()`. `Expects` the sending flag set and the
failed flag clear (`none` models the tripped assertion); sets the
failed flag, clears the sending flag, and when the peer is a channel
schedules the delayed `ChannelLocalMessages` peer notification. -/
def sendFailed (conv : Conversation) (it : Item) : Option (Item × List Event) :=
  if it.flags.sending && !it.flags.failed then
    some
      ({ it with flags := { it.flags with failed := true, sending := false } },
        if conv.peer.isChannel then [Event.channelLocalMessages] else [])
  else none

/-- `HistoryItem::mentionsMe()`: false for a pinned-service item when
the session setting silences pinned notifications, otherwise the
`f_mentioned` flag. -/
def mentionsMe (conv : Conversation) (it : Item) : Bool :=
  if it.hasServicePinned && !conv.notifyAboutPinned then false
  else it.flags.mentioned

/-- `HistoryItem::markMediaRead()`: clears the `f_media_unread` flag,
then, when the item mentions the current user, updates the chat-list
entry and erases the id from the conversation's unread mentions. -/
def markMediaRead (conv : Conversation) (it : Item) : Item × List Event :=
  let it1 : Item := { it with flags := { it.flags with mediaUnread := false } }
  (it1,
    if mentionsMe conv it1 then
      [Event.updateChatListEntry, Event.eraseFromUnreadMentions it1.id]
    else [])

/-- `HistoryItem::unread()`: self-chat messages are read; outgoing
messages are read when the peer migrated to a successor conversation,
otherwise server-range ones follow the server-side read position with
bot-user and non-megagroup-channel peers always read while local-range
ones are unread; incoming server-range messages follow the server-side
read position and incoming local-range ones the `f_clientside_unread`
flag. -/
def unread (conv : Conversation) (it : Item) : Bool :=
  if conv.peer.isSelf then false
  else if it.out then
    if conv.peer.hasMigrateTo then false
    else if IsServerMsgId it.id then
      if !conv.serverSideUnread then false
      else if conv.peer.isUser then
        if conv.peer.botFlag then false else true
      else if conv.peer.isChannel then
        if !conv.peer.megagroupFlag then false else true
      else true
    else true
  else if IsServerMsgId it.id then
    if !conv.serverSideUnread then false else true
  else it.flags.clientsideUnread

/-- `HistoryItem::canDelete()`: false for log entries and for service
messages whose id is not yet server-range; in non-channel conversations
true unless the item is the group-migration marker; in channels id 1 is
never deletable, channel-wide delete rights always suffice, and
otherwise only an outgoing content message is deletable, a channel post
additionally requiring publish rights. -/
def canDelete (conv : Conversation) (it : Item) : Bool :=
  if it.isLogEntry || (!IsServerMsgId it.id && it.serviceMsg) then false
  else if !conv.peer.isChannel then !it.isGroupMigrate
  else if it.id == 1 then false
  else if conv.peer.channelCanDeleteMessages then true
  else if it.out && it.toHistoryMessage then
    if it.isPost then conv.peer.channelCanPublish else true
  else false

/-- The `Global::` configuration values this excerpt reads:
`RevokePrivateTimeLimit`, `RevokeTimeLimit`, `RevokePrivateInbox`. -/
structure GlobalConfig where
  revokePrivateTimeLimit : Int
  revokeTimeLimit : Int
  revokePrivateInbox : Bool
deriving DecidableEq

/-- `HistoryItem::canDeleteForEveryone(now)`: the revoke predicate,
embedded clause by clause from the source. -/
def canDeleteForEveryone
    (cfg : GlobalConfig) (conv : Conversation) (it : Item) (now : Int) : Bool :=
  let peer := conv.peer
  let messageToMyself := peer.isSelf
  let messageTooOld :=
    if messageToMyself then false
    else if peer.isUser then decide (cfg.revokePrivateTimeLimit ≤ now - it.date)
    else decide (cfg.revokeTimeLimit ≤ now - it.date)
  if decide (it.id < 0) || messageToMyself || messageTooOld || it.isPost then false
  else if peer.isChannel then false
  else if peer.isUser && (peer.botFlag && !peer.supportFlag) then false
  else if !peer.isUser
      && (!it.toHistoryMessage
        || (match it.media with
            | some media => !media.allowsRevoke
            | none => false)) then false
  else if !it.out then
    if peer.isChat then peer.chatAmCreator || peer.chatAdminCanDeleteMessages
    else if peer.isUser then cfg.revokePrivateInbox
    else false
  else true

/-- `kNotificationTextLimit` from the anonymous namespace. -/
def kNotificationTextLimit : Nat := 255

/-- The ellipsis marker `qsl("...")` appended on truncation. -/
def ellipsisMarker : List Char := ['.', '.', '.']

/-- The `result` lambda inside `HistoryItem::notificationText`: the
media's notification summary when media is present, else the body text
when non-empty, else the empty string. -/
def itemSummary (it : Item) : List Char :=
  match it.media with
  | some media => media.summary
  | none => if !it.text.isEmpty then it.text else []

/-- `HistoryItem::notificationText()`: the underlying summary, returned
unchanged when within `kNotificationTextLimit`, otherwise its first
`kNotificationTextLimit` characters followed by the ellipsis marker. -/
def notificationText (it : Item) : List Char :=
  if (itemSummary it).length ≤ kNotificationTextLimit then itemSummary it
  else (itemSummary it).take kNotificationTextLimit ++ ellipsisMarker

/-- `MTPgeoPoint` variants. -/
inductive MTPGeoPoint
  | geoPoint
  | geoPointEmpty
deriving DecidableEq

/-- `MTPphoto` variants. -/
inductive MTPPhoto
  | photo
  | photoEmpty
deriving DecidableEq

/-- `MTPdocument` variants. -/
inductive MTPDocument
  | document
  | documentEmpty
deriving DecidableEq

/-- `MTPwebPage` variants. -/
inductive MTPWebPage
  | webPage
  | webPageEmpty
  | webPagePending
  | webPageNotModified
deriving DecidableEq

/-- `MTPMessageMedia` variants, with the optional sub-fields
`CheckMessageMedia` inspects (`ttl_seconds`, inner `photo` /
`document` bodies, `geo`, `webpage`). -/
inductive MTPMessageMedia
  | messageMediaEmpty
  | messageMediaContact
  | messageMediaGeo (geo : MTPGeoPoint)
  | messageMediaVenue (geo : MTPGeoPoint)
  | messageMediaGeoLive (geo : MTPGeoPoint)
  | messageMediaPhoto (ttlSeconds : Option Int) (photo : Option MTPPhoto)
  | messageMediaDocument (ttlSeconds : Option Int) (document : Option MTPDocument)
  | messageMediaWebPage (webpage : MTPWebPage)
  | messageMediaGame
  | messageMediaInvoice
  | messageMediaPoll
  | messageMediaUnsupported
deriving DecidableEq

/-- `MediaCheckResult` from the anonymous namespace. -/
inductive MediaCheckResult
  | Good
  | Unsupported
  | Empty
  | HasTimeToLive
deriving DecidableEq

/-- `CheckMessageMedia`: the media-completeness classifier, matched
variant by variant from the source. -/
def CheckMessageMedia : MTPMessageMedia → MediaCheckResult
  | .messageMediaEmpty => .Good
  | .messageMediaContact => .Good
  | .messageMediaGeo geo =>
    match geo with
    | .geoPoint => .Good
    | .geoPointEmpty => .Empty
  | .messageMediaVenue geo =>
    match geo with
    | .geoPoint => .Good
    | .geoPointEmpty => .Empty
  | .messageMediaGeoLive geo =>
    match geo with
    | .geoPoint => .Good
    | .geoPointEmpty => .Empty
  | .messageMediaPhoto ttlSeconds photo =>
    if ttlSeconds.isSome then .HasTimeToLive
    else
      match photo with
      | none => .Empty
      | some .photo => .Good
      | some .photoEmpty => .Empty
  | .messageMediaDocument ttlSeconds document =>
    if ttlSeconds.isSome then .HasTimeToLive
    else
      match document with
      | none => .Empty
      | some .document => .Good
      | some .documentEmpty => .Empty
  | .messageMediaWebPage webpage =>
    match webpage with
    | .webPage => .Good
    | .webPageEmpty => .Good
    | .webPagePending => .Good
    | .webPageNotModified => .Unsupported
  | .messageMediaGame => .Good
  | .messageMediaInvoice => .Good
  | .messageMediaPoll => .Good
  | .messageMediaUnsupported => .Unsupported

/-- A reconciliation operation applied to a message: backend
confirmation (`setRealId`) or send failure (`sendFailed`). -/
inductive ReconOp
  | confirm (newId : Int)
  | failSend
deriving DecidableEq

/-- Apply one reconciliation operation; a tripped assertion (`none`)
leaves the state unchanged. -/
def applyOp (conv : Conversation) (it : Item) : ReconOp → Item
  | .confirm newId =>
    match setRealId it newId with
    | some (it1, _) => it1
    | none => it
  | .failSend =>
    match sendFailed conv it with
    | some (it1, _) => it1
    | none => it

/-- Apply a sequence of reconciliation operations in order. -/
def runOps (conv : Conversation) (it : Item) (ops : List ReconOp) : Item :=
  ops.foldl (applyOp conv) it

/-- Mutual exclusion of the sending and failed flags: at most one of
them holds. -/
def flagsMutex (it : Item) : Prop :=
  ¬(it.flags.sending = true ∧ it.flags.failed = true)

instance (it : Item) : Decidable (flagsMutex it) :=
  decidable_of_iff (¬(it.flags.sending = true ∧ it.flags.failed = true)) Iff.rfl

/-- Transcription of the spec's `unread()` decision table, clause for
clause: self-chat always read; outgoing server-confirmed read once the
read position has passed, always read for bot peers and non-megagroup
channels; outgoing provisional unread unless the peer has a migrated-to
successor; incoming server-confirmed follows the read position;
incoming provisional follows the client-side-unread flag. -/
def unreadClaimed (conv : Conversation) (it : Item) : Bool :=
  if conv.peer.isSelf then false
  else if it.out then
    if IsServerMsgId it.id then
      conv.serverSideUnread
        && !(conv.peer.isUser && conv.peer.botFlag)
        && !(conv.peer.isChannel && !conv.peer.megagroupFlag)
    else !conv.peer.hasMigrateTo
  else if IsServerMsgId it.id then conv.serverSideUnread
  else it.flags.clientsideUnread

/-- Amended `unread()` decision table: as claimed, except that every
outgoing message — server-confirmed as well as provisional — is read
when the peer has a migrated-to successor conversation. -/
def unreadAmended (conv : Conversation) (it : Item) : Bool :=
  if conv.peer.isSelf then false
  else if it.out then
    if conv.peer.hasMigrateTo then false
    else if IsServerMsgId it.id then
      conv.serverSideUnread
        && !(conv.peer.isUser && conv.peer.botFlag)
        && !(conv.peer.isChannel && !conv.peer.megagroupFlag)
    else true
  else if IsServerMsgId it.id then conv.serverSideUnread
  else it.flags.clientsideUnread

/-- Transcription of the spec's `canDelete` decision table, clause for
clause. -/
def canDeleteClaimed (conv : Conversation) (it : Item) : Bool :=
  if it.isLogEntry then false
  else if !IsServerMsgId it.id && it.serviceMsg then false
  else if !conv.peer.isChannel then !it.isGroupMigrate
  else if it.id == 1 then false
  else if conv.peer.channelCanDeleteMessages then true
  else it.out && it.toHistoryMessage && (!it.isPost || conv.peer.channelCanPublish)

/-! Concrete states used by witnesses and counterexamples. -/

/-- All flags clear. -/
def flags0 : Flags := ⟨false, false, false, false, false, false, false⟩

/-- A plain confirmed message with every optional part absent. -/
def item0 : Item :=
  { id := 0, date := 0, flags := flags0, text := [], media := none,
    groupId := none, markup := none, hasServicePinned := false,
    registeredLocal := false, isLogEntry := false, serviceMsg := false,
    toHistoryMessage := false, isGroupMigrate := false }

/-- An ordinary user peer with no capabilities. -/
def peer0 : Peer :=
  { kind := .user, selfFlag := false, botFlag := false, supportFlag := false,
    megagroupFlag := false, hasMigrateTo := false,
    channelCanDeleteMessages := false, channelCanPublish := false,
    chatAmCreator := false, chatAdminCanDeleteMessages := false }

/-- A one-to-one conversation with an ordinary user. -/
def conv0 : Conversation := ⟨peer0, false, true⟩

/-- A channel conversation. -/
def convChannel : Conversation := ⟨{ peer0 with kind := .channel }, false, true⟩

/-- A basic-group conversation whose chat migrated to a successor and
whose read position has not passed this item. -/
def convMigrated : Conversation :=
  ⟨{ peer0 with kind := .chat, hasMigrateTo := true }, true, true⟩

/-- A provisional message with id `-5`, pending send, registered in the
local-message index. -/
def itemProv5 : Item :=
  { item0 with
    id := -5
    flags := { flags0 with sending := true }
    registeredLocal := true }

/-- The state `itemProv5` reaches once confirmed with server id 9001. -/
def itemConfirmed5 : Item := { item0 with id := 9001 }

/-- A provisional message with id `-17`, pending send, registered in
the local-message index. -/
def itemProv17 : Item :=
  { item0 with
    id := -17
    flags := { flags0 with sending := true }
    registeredLocal := true }

/-- The state `itemProv17` reaches once its send fails. -/
def itemFailed17 : Item :=
  { item0 with
    id := -17
    flags := { flags0 with failed := true }
    registeredLocal := true }

/-- An outgoing server-confirmed message with id 5. -/
def itemOutConfirmed : Item :=
  { item0 with id := 5, flags := { flags0 with outgoing := true } }

/-! Helper lemmas shared by the reconciliation claims. -/

/-- A successful `setRealId` leaves the sending flag clear. -/
theorem setRealId_sending_cleared {it it1 : Item} {newId : Int} {ev : List Event}
    (h : setRealId it newId = some (it1, ev)) : it1.flags.sending = false := by
  unfold setRealId at h
  by_cases hc : (it.flags.sending && IsClientMsgId it.id) = true
  · rw [if_pos hc] at h
    simp only [Option.some.injEq, Prod.mk.injEq] at h
    obtain ⟨h1, -⟩ := h
    split at h1 <;> rw [← h1]
  · rw [if_neg hc] at h
    exact Option.noConfusion h

/-- A successful `sendFailed` leaves the sending flag clear. -/
theorem sendFailed_sending_cleared {conv : Conversation} {it it1 : Item}
    {ev : List Event}
    (h : sendFailed conv it = some (it1, ev)) : it1.flags.sending = false := by
  unfold sendFailed at h
  by_cases hc : (it.flags.sending && !it.flags.failed) = true
  · rw [if_pos hc] at h
    simp only [Option.some.injEq, Prod.mk.injEq] at h
    obtain ⟨h1, -⟩ := h
    rw [← h1]
  · rw [if_neg hc] at h
    exact Option.noConfusion h

/-- A successful `sendFailed` sets the failed flag. -/
theorem sendFailed_failed_set {conv : Conversation} {it it1 : Item}
    {ev : List Event}
    (h : sendFailed conv it = some (it1, ev)) : it1.flags.failed = true := by
  unfold sendFailed at h
  by_cases hc : (it.flags.sending && !it.flags.failed) = true
  · rw [if_pos hc] at h
    simp only [Option.some.injEq, Prod.mk.injEq] at h
    obtain ⟨h1, -⟩ := h
    rw [← h1]
  · rw [if_neg hc] at h
    exact Option.noConfusion h

/-- With the sending flag clear, `setRealId` trips its assertion. -/
theorem setRealId_not_sending {it : Item} (h : it.flags.sending = false)
    (newId : Int) : setRealId it newId = none := by
  unfold setRealId
  rw [h]
  simp

/-- With the sending flag clear, `sendFailed` trips its assertion. -/
theorem sendFailed_not_sending {it : Item} (h : it.flags.sending = false)
    (conv : Conversation) : sendFailed conv it = none := by
  unfold sendFailed
  rw [h]
  simp

/-- Each reconciliation operation preserves flag mutual exclusion. -/
theorem applyOp_mutex (conv : Conversation) (it : Item) (op : ReconOp)
    (h : flagsMutex it) : flagsMutex (applyOp conv it op) := by
  cases op with
  | confirm newId =>
    simp only [applyOp]
    cases hs : setRealId it newId with
    | none => exact h
    | some p =>
      obtain ⟨it1, ev⟩ := p
      have hsend := setRealId_sending_cleared hs
      intro hcontra
      have h1 : it1.flags.sending = true := hcontra.1
      rw [hsend] at h1
      exact absurd h1 (by simp)
  | failSend =>
    simp only [applyOp]
    cases hs : sendFailed conv it with
    | none => exact h
    | some p =>
      obtain ⟨it1, ev⟩ := p
      have hsend := sendFailed_sending_cleared hs
      intro hcontra
      have h1 : it1.flags.sending = true := hcontra.1
      rw [hsend] at h1
      exact absurd h1 (by simp)

/-- Claim C1: for a message in the Provisional state (pending-send flag
set, id in the client range), `setRealId(newId)` succeeds, replaces the
id with `newId`, clears the pending-send flag, removes the message from
the conversation's local-message index when the new id is in the server
range, and fires the id-change notification carrying the old id. -/
theorem C1_setRealId_confirms (it : Item) (newId : Int)
    (hSending : it.flags.sending = true)
    (hClient : IsClientMsgId it.id = true) :
    (setRealId it newId).isSome = true ∧
    ∀ it1 ev, setRealId it newId = some (it1, ev) →
      it1.id = newId ∧ it1.flags.sending = false ∧
      (IsServerMsgId newId = true → it1.registeredLocal = false) ∧
      Event.itemIdChange it.id ∈ ev := by
  have hc : (it.flags.sending && IsClientMsgId it.id) = true := by
    rw [hSending, hClient]; rfl
  constructor
  · unfold setRealId
    rw [if_pos hc]
    rfl
  · intro it1 ev h
    unfold setRealId at h
    rw [if_pos hc] at h
    simp only [Option.some.injEq, Prod.mk.injEq] at h
    obtain ⟨h1, h2⟩ := h
    split at h1 <;> rename_i hsv <;> rw [← h1]
    · exact ⟨rfl, rfl, fun _ => rfl, by rw [← h2]; simp⟩
    · exact ⟨rfl, rfl, fun hs => absurd hs hsv, by rw [← h2]; simp⟩

/-- Witness for claim C1: the provisional message with id `-5`,
confirmed with server id `9001`, reaches exactly `itemConfirmed5`:
id `9001`, pending-send cleared, local-index entry removed, and the
id-change notification carries old id `-5`. -/
theorem C1_setRealId_confirms_witness :
    (setRealId itemProv5 9001).isSome = true ∧
    (itemConfirmed5.id = 9001 ∧ itemConfirmed5.flags.sending = false ∧
      (IsServerMsgId 9001 = true → itemConfirmed5.registeredLocal = false) ∧
      Event.itemIdChange itemProv5.id ∈
        [Event.itemIdChange (-5), Event.itemRepaint]) :=
  ⟨(C1_setRealId_confirms itemProv5 9001 rfl rfl).1,
   (C1_setRealId_confirms itemProv5 9001 rfl rfl).2 itemConfirmed5
     [Event.itemIdChange (-5), Event.itemRepaint] (by decide)⟩

/-- Claim C2: for a message that is pending-send and not already
failed, `sendFailed()` succeeds, sets the send-failed flag, clears the
pending-send flag, leaves the id unchanged, and schedules the delayed
channel-local-messages notification exactly when the peer is a channel;
on a message that is not pending-send or that is already failed it
trips its assertion. -/
theorem C2_sendFailed (conv : Conversation) (it : Item) :
    (it.flags.sending = true → it.flags.failed = false →
      ∃ it1 ev, sendFailed conv it = some (it1, ev) ∧
        it1.flags.failed = true ∧ it1.flags.sending = false ∧
        it1.id = it.id ∧
        (Event.channelLocalMessages ∈ ev ↔ conv.peer.isChannel = true)) ∧
    (¬(it.flags.sending = true ∧ it.flags.failed = false) →
      sendFailed conv it = none) := by
  constructor
  · intro hS hF
    have hc : (it.flags.sending && !it.flags.failed) = true := by
      rw [hS, hF]; rfl
    refine ⟨{ it with flags := { it.flags with failed := true, sending := false } },
      (if conv.peer.isChannel then [Event.channelLocalMessages] else []),
      ?_, rfl, rfl, rfl, ?_⟩
    · unfold sendFailed
      rw [if_pos hc]
    · by_cases hch : conv.peer.isChannel = true
      · simp [hch]
      · simp [hch]
  · intro hn
    have hc : ¬((it.flags.sending && !it.flags.failed) = true) := by
      intro hc
      rw [Bool.and_eq_true, Bool.not_eq_true'] at hc
      exact hn hc
    unfold sendFailed
    rw [if_neg hc]

/-- Witness for claim C2: the pending message with id `-17` in a
channel conversation fails: flags become send-failed only, id stays
`-17`, the channel-local-messages notification is scheduled; and a
message that is not pending-send trips the assertion. -/
theorem C2_sendFailed_witness :
    (∃ it1 ev, sendFailed convChannel itemProv17 = some (it1, ev) ∧
      it1.flags.failed = true ∧ it1.flags.sending = false ∧
      it1.id = itemProv17.id ∧
      (Event.channelLocalMessages ∈ ev ↔ convChannel.peer.isChannel = true)) ∧
    sendFailed conv0 item0 = none :=
  ⟨(C2_sendFailed convChannel itemProv17).1 rfl rfl,
   (C2_sendFailed conv0 item0).2 (by decide)⟩

/-- Claim C3: starting from a state where at most one of the
pending-send and send-failed flags holds, any sequence of
reconciliation operations preserves that mutual exclusion. -/
theorem C3_flags_mutual_exclusion (conv : Conversation) (it : Item)
    (ops : List ReconOp) (h : flagsMutex it) :
    flagsMutex (runOps conv it ops) := by
  induction ops generalizing it with
  | nil => exact h
  | cons op rest ih => exact ih _ (applyOp_mutex conv it op h)

/-- Witness for claim C3: a confirm followed by a failure attempt on a
concrete pending message keeps the flags mutually exclusive. -/
theorem C3_flags_mutual_exclusion_witness :
    flagsMutex (runOps conv0 itemProv5 [ReconOp.confirm 9001, ReconOp.failSend]) :=
  C3_flags_mutual_exclusion conv0 itemProv5
    [ReconOp.confirm 9001, ReconOp.failSend] (by decide)

/-- Claim C4: the reconciliation transitions are single-shot — after a
successful `setRealId` or `sendFailed`, any further `setRealId` or
`sendFailed` call on the resulting state trips the pending-send
assertion. -/
theorem C4_single_shot (it it1 : Item) (ev : List Event)
    (h : (∃ newId, setRealId it newId = some (it1, ev)) ∨
      (∃ conv, sendFailed conv it = some (it1, ev))) :
    (∀ newId, setRealId it1 newId = none) ∧
    (∀ conv, sendFailed conv it1 = none) := by
  have hsend : it1.flags.sending = false := by
    rcases h with ⟨newId, hc⟩ | ⟨conv, hc⟩
    · exact setRealId_sending_cleared hc
    · exact sendFailed_sending_cleared hc
  exact ⟨fun newId => setRealId_not_sending hsend newId,
    fun conv => sendFailed_not_sending hsend conv⟩

/-- Witness for claim C4: after the concrete confirmation of the id
`-5` message and after the concrete failure of the id `-17` message,
every further reconciliation call returns `none`. -/
theorem C4_single_shot_witness :
    ((∀ newId, setRealId itemConfirmed5 newId = none) ∧
      (∀ conv, sendFailed conv itemConfirmed5 = none)) ∧
    ((∀ newId, setRealId itemFailed17 newId = none) ∧
      (∀ conv, sendFailed conv itemFailed17 = none)) :=
  ⟨C4_single_shot itemProv5 itemConfirmed5
      [Event.itemIdChange (-5), Event.itemRepaint] (Or.inl ⟨9001, by decide⟩),
   C4_single_shot itemProv17 itemFailed17
      [Event.channelLocalMessages] (Or.inr ⟨convChannel, by decide⟩)⟩

/-- Counterexample to claim C5 as stated: in a basic-group conversation
whose chat migrated to a successor, an outgoing server-confirmed
message not yet passed by the read position is read in the code, while
the claim's decision table (which attaches the migrated-to exception
only to outgoing provisional messages) calls it unread. -/
theorem C5_unread_counterexample :
    unread convMigrated itemOutConfirmed = false ∧
    unreadClaimed convMigrated itemOutConfirmed = true := by decide

/-- Claim C5 (amended): `unread()` follows the claimed decision table
amended so that every outgoing message — server-confirmed as well as
provisional — is always read when the peer has a migrated-to successor
conversation. -/
theorem C5_unread_amended_table (conv : Conversation) (it : Item) :
    unread conv it = unreadAmended conv it := by
  obtain ⟨⟨kind, selfF, botF, supF, megaF, migF, cdm, cpub, amc, acd⟩, ssu, np⟩ :=
    conv
  obtain ⟨msgId, msgDate, ⟨snd, fld, csu, men, mu, pst, outg⟩, txt, med, gid,
    mkp, sp, reg, log, svc, toHist, mig⟩ := it
  simp only [unread, unreadAmended, Peer.isSelf, Peer.isUser, Peer.isChannel,
    Item.out]
  cases hsv : IsServerMsgId msgId <;> cases kind <;> cases selfF <;>
    cases outg <;> cases migF <;> cases ssu <;> cases botF <;>
    cases megaF <;> cases csu <;> rfl

/-- Claim C6: `canDelete()` agrees everywhere with the claimed decision
table: false for log entries and not-yet-confirmed service messages;
non-channel conversations deletable unless the message is the
chat-migration marker; channels never allow deleting id 1, channel-wide
delete rights always suffice, and otherwise only outgoing content
messages are deletable, channel posts additionally requiring publish
rights. -/
theorem C6_canDelete_table (conv : Conversation) (it : Item) :
    canDelete conv it = canDeleteClaimed conv it := by
  obtain ⟨⟨kind, selfF, botF, supF, megaF, migF, cdm, cpub, amc, acd⟩, ssu, np⟩ :=
    conv
  obtain ⟨msgId, msgDate, ⟨snd, fld, csu, men, mu, pst, outg⟩, txt, med, gid,
    mkp, sp, reg, log, svc, toHist, mig⟩ := it
  simp only [canDelete, canDeleteClaimed, Peer.isChannel, Item.out, Item.isPost]
  cases hsv : IsServerMsgId msgId <;> cases h1 : (msgId == 1 : Bool) <;>
    cases kind <;> cases log <;> cases svc <;> cases cdm <;> cases outg <;>
    cases toHist <;> cases pst <;> cases cpub <;> cases mig <;> rfl

/-- Claim C7: `canDeleteForEveryone(now)` is false whenever the id is
provisional, the message is a self-chat echo, the message is a channel
post, or the age `now - date` is at or beyond the configured revoke
threshold for the conversation kind (private-chat threshold for user
peers, group threshold otherwise), for all thresholds at least 0. -/
theorem C7_canDeleteForEveryone_false (cfg : GlobalConfig)
    (conv : Conversation) (it : Item) (now : Int)
    (hpriv : 0 ≤ cfg.revokePrivateTimeLimit)
    (hgroup : 0 ≤ cfg.revokeTimeLimit)
    (h : it.id < 0 ∨ conv.peer.isSelf = true ∨ it.isPost = true ∨
      (if conv.peer.isUser = true then
        cfg.revokePrivateTimeLimit ≤ now - it.date
       else cfg.revokeTimeLimit ≤ now - it.date)) :
    canDeleteForEveryone cfg conv it now = false := by
  unfold canDeleteForEveryone
  rcases h with h | h | h | h
  · simp [h]
  · simp [h]
  · simp [h]
  · by_cases hself : conv.peer.isSelf = true
    · simp [hself]
    · rw [Bool.not_eq_true] at hself
      by_cases huser : conv.peer.isUser = true
      · rw [if_pos huser] at h
        simp [hself, huser, h]
      · rw [if_neg huser] at h
        rw [Bool.not_eq_true] at huser
        simp [hself, huser, h]

/-- Witness for claim C7: with thresholds 2 (private) and 3 (group), an
ordinary one-to-one message dated 0 queried at time 100 is past the
private threshold and cannot be deleted for everyone. -/
theorem C7_canDeleteForEveryone_false_witness :
    canDeleteForEveryone ⟨2, 3, false⟩ conv0 item0 100 = false :=
  C7_canDeleteForEveryone_false ⟨2, 3, false⟩ conv0 item0 100
    (by decide) (by decide) (by decide)

/-- Claim C8: `CheckMessageMedia` classifies a photo container with no
inner photo body (absent photo field or empty photo variant, no TTL) as
`Empty`, and classifies a webpage payload as `Good` for the real-page,
empty-placeholder and pending variants but as `Unsupported` for the
not-modified variant. -/
theorem C8_media_classification :
    CheckMessageMedia (.messageMediaPhoto none none) = .Empty ∧
    CheckMessageMedia (.messageMediaPhoto none (some .photoEmpty)) = .Empty ∧
    CheckMessageMedia (.messageMediaWebPage .webPage) = .Good ∧
    CheckMessageMedia (.messageMediaWebPage .webPageEmpty) = .Good ∧
    CheckMessageMedia (.messageMediaWebPage .webPagePending) = .Good ∧
    CheckMessageMedia (.messageMediaWebPage .webPageNotModified) = .Unsupported := by
  decide

/-- Claim C9: `notificationText()` returns the underlying summary
unchanged when its length is at most `kNotificationTextLimit` (255)
characters, and otherwise returns its first 255 characters followed by
the ellipsis marker. -/
theorem C9_notification_text (it : Item) :
    ((itemSummary it).length ≤ kNotificationTextLimit →
      notificationText it = itemSummary it) ∧
    (¬((itemSummary it).length ≤ kNotificationTextLimit) →
      notificationText it =
        (itemSummary it).take kNotificationTextLimit ++ ellipsisMarker) := by
  constructor <;> intro h <;> unfold notificationText
  · rw [if_pos h]
  · rw [if_neg h]

/-- A message whose body is 300 copies of the letter a. -/
def item300 : Item := { item0 with text := List.replicate 300 'a' }

/-- A message whose body is 200 copies of the letter a. -/
def item200 : Item := { item0 with text := List.replicate 200 'a' }

set_option maxRecDepth 4000 in
/-- Witness for claim C9: the 300-character body exceeds the limit and
truncates to its first 255 characters plus the ellipsis marker; the
200-character body is returned unchanged. -/
theorem C9_notification_text_witness :
    (¬((itemSummary item300).length ≤ kNotificationTextLimit) ∧
      notificationText item300 =
        (itemSummary item300).take kNotificationTextLimit ++ ellipsisMarker) ∧
    ((itemSummary item200).length ≤ kNotificationTextLimit ∧
      notificationText item200 = itemSummary item200) :=
  ⟨⟨by decide, (C9_notification_text item300).2 (by decide)⟩,
   ⟨by decide, (C9_notification_text item200).1 (by decide)⟩⟩

/-- Claim C10: `markMediaRead()` clears only the unread-media flag —
the id, timestamp, group id, text, media, attached components, index
registration, classification facts, and every other flag are unchanged.
-/
theorem C10_markMediaRead_frame (conv : Conversation) (it : Item) :
    (markMediaRead conv it).1.flags.mediaUnread = false ∧
    (markMediaRead conv it).1.id = it.id ∧
    (markMediaRead conv it).1.date = it.date ∧
    (markMediaRead conv it).1.text = it.text ∧
    (markMediaRead conv it).1.media = it.media ∧
    (markMediaRead conv it).1.groupId = it.groupId ∧
    (markMediaRead conv it).1.markup = it.markup ∧
    (markMediaRead conv it).1.hasServicePinned = it.hasServicePinned ∧
    (markMediaRead conv it).1.registeredLocal = it.registeredLocal ∧
    (markMediaRead conv it).1.isLogEntry = it.isLogEntry ∧
    (markMediaRead conv it).1.serviceMsg = it.serviceMsg ∧
    (markMediaRead conv it).1.toHistoryMessage = it.toHistoryMessage ∧
    (markMediaRead conv it).1.isGroupMigrate = it.isGroupMigrate ∧
    (markMediaRead conv it).1.flags.sending = it.flags.sending ∧
    (markMediaRead conv it).1.flags.failed = it.flags.failed ∧
    (markMediaRead conv it).1.flags.mentioned = it.flags.mentioned ∧
    (markMediaRead conv it).1.flags.outgoing = it.flags.outgoing ∧
    (markMediaRead conv it).1.flags.post = it.flags.post ∧
    (markMediaRead conv it).1.flags.clientsideUnread = it.flags.clientsideUnread :=
  ⟨rfl, rfl, rfl, rfl, rfl, rfl, rfl, rfl, rfl, rfl, rfl, rfl, rfl, rfl, rfl,
   rfl, rfl, rfl, rfl⟩
